import Mathlib

/-!
Shallow embedding of the shop_list_bot data-access layer
(`src/repositories/sqlite/base.py`, `cart_repository.py`,
`product_repository.py`, `src/db/sqlite_manager.py`,
`src/db/__init__.py`, `src/repositories/factory.py`).

Stores are modelled as explicit state; every repository method becomes a
function from the committed database state to a result together with the
new committed state.  A method persists its statements only if it calls
`commit` on its connection (the sqlite driver used by the source opens
each connection in manual-commit mode and discards uncommitted changes
when the connection is closed at the end of the method's scoped block).
Machine-level details (the event loop, wire encodings) are abstracted;
control flow, validation, SQL statement semantics, commit points and the
exception discipline are translated statement by statement.
-/

set_option autoImplicit false

namespace ShopListBot

/-- A value as stored in a row or passed in a data dictionary.
`null`/`text`/`int`/`real` are the sqlite storage classes used by this
schema; `uuid` and `timestamp` model the in-memory `uuid.UUID` /
`datetime` objects produced by row coercion (`_row_to_model`). -/
inductive SVal where
  | null
  | text (s : String)
  | int (n : Int)
  | real (q : Rat)
  | uuid (s : String)
  | timestamp (s : String)
  deriving DecidableEq, Repr

/-- The exception kinds the translated code can raise.
`invalidFilterKey` models `InvalidFilterKeyError` (`exeptions.py`), a
dedicated subclass of `ValueError`; `sqliteError` models `sqlite3.Error`
and its subclasses (`IntegrityError`, `OperationalError`, ...). -/
inductive PyError where
  | valueError (msg : String)
  | invalidFilterKey (key : String)
  | sqliteError (msg : String)
  | typeError (msg : String)
  deriving DecidableEq, Repr

/-- Python truthiness (`not data_dict["id"]`, `if row:`, ...) for the
values that occur in this model.  `uuid.UUID` and `datetime` objects are
always truthy. -/
def pyTruthy : SVal → Bool
  | .null => false
  | .text s => !s.isEmpty
  | .int n => n != 0
  | .real q => q != 0
  | .uuid _ => true
  | .timestamp _ => true

/-! ### ASCII character and string helpers (models of the `str` methods
used by the source: `isidentifier`, `lower`, `endswith`, `replace`, and
the format accepted by `uuid.UUID(...)`). -/

def charIsUpperAZ (c : Char) : Bool := 'A' ≤ c && c ≤ 'Z'

def charIsLowerAZ (c : Char) : Bool := 'a' ≤ c && c ≤ 'z'

def charIsDigit09 (c : Char) : Bool := '0' ≤ c && c ≤ '9'

def charIsAsciiAlpha (c : Char) : Bool := charIsLowerAZ c || charIsUpperAZ c

/-- ASCII lower-casing of one character, as `str.lower` does it. -/
def charToLower (c : Char) : Char :=
  if charIsUpperAZ c then Char.ofNat (c.toNat + 32) else c

/-- Model of `str.lower` (the source only lower-cases ASCII hex/dash
strings, where `str.lower` acts character-wise exactly like this). -/
def strToLower (s : String) : String := ⟨s.data.map charToLower⟩

/-- Model of `str.isidentifier` on the ASCII fragment: nonempty, first
character a letter or underscore, the rest letters, digits or
underscores. -/
def pyIsIdentifier (s : String) : Bool :=
  match s.data with
  | [] => false
  | c :: cs =>
    (charIsAsciiAlpha c || c = '_')
      && cs.all (fun d => charIsAsciiAlpha d || charIsDigit09 d || d = '_')

def charIsHex (c : Char) : Bool :=
  charIsDigit09 c || ('a' ≤ c && c ≤ 'f') || ('A' ≤ c && c ≤ 'F')

/-- One position of the canonical dashed uuid form `8-4-4-4-12`. -/
def uuidCharOk (i : Nat) (c : Char) : Bool :=
  if i = 8 || i = 13 || i = 18 || i = 23 then c = '-' else charIsHex c

/-- Model of the strings accepted by `uuid.UUID(s)` as the source uses
it: the canonical dashed hexadecimal form (either case). -/
def pyIsUUID (s : String) : Bool :=
  s.data.length = 36 && s.data.enum.all (fun p => uuidCharOk p.1 p.2)

/-- Model of `str(uuid.UUID(s))` for an accepted `s`: the canonical form
is the dashed lower-case spelling. -/
def pyStrUUID (s : String) : String := strToLower s

/-- A database row / Python data dictionary: ordered key-value pairs
(Python dicts preserve insertion order and have distinct keys). -/
abbrev Row := List (String × SVal)

/-- `d[k]` lookup (`None`-free: `none` means the key is absent). -/
def rowGet (r : Row) (k : String) : Option SVal :=
  (r.find? (fun p => p.1 == k)).map (fun p => p.2)

/-- `k in d`. -/
def rowHasKey (r : Row) (k : String) : Bool := r.any (fun p => p.1 == k)

/-- Python dict assignment `d[k] = v`: replaces the value in place if the
key exists, else appends the pair at the end. -/
def dictSet (r : Row) (k : String) (v : SVal) : Row :=
  if rowHasKey r k then r.map (fun p => if p.1 == k then (k, v) else p)
  else r ++ [(k, v)]

def rowKeys (r : Row) : List String := r.map (fun p => p.1)

/-- Model of `str.endswith`. -/
def strEndsWith (s suf : String) : Bool := suf.data.isSuffixOf s.data

/-- Model of `value.replace("Z", "+00:00")` (base.py line 51). -/
def normZ (s : String) : String :=
  ⟨(s.data.map (fun c => if c = 'Z' then "+00:00".data else [c])).flatten⟩

/-- Shape test modelling `datetime.datetime.fromisoformat` acceptance as
this system exercises it: the mandatory `YYYY-MM-DD` date prefix.  The
strings this schema writes are `isoformat()` outputs, on which this test
discriminates exactly as the source parser does. -/
def isIsoDatetime (s : String) : Bool :=
  match s.data with
  | y1 :: y2 :: y3 :: y4 :: s1 :: m1 :: m2 :: s2 :: d1 :: d2 :: _ =>
    charIsDigit09 y1 && charIsDigit09 y2 && charIsDigit09 y3 && charIsDigit09 y4
      && s1 = '-' && charIsDigit09 m1 && charIsDigit09 m2 && s2 = '-'
      && charIsDigit09 d1 && charIsDigit09 d2
  | _ => false

/-- One field of `_row_to_model` (base.py lines 41-52): a truthy textual
value under a key named `id`/`*_id` is parsed as a `uuid.UUID` and under
a key named `*_at` as a `datetime`; a parse failure is suppressed
(`contextlib.suppress(ValueError)`) and leaves the raw text. -/
def coerceField (k : String) (v : SVal) : SVal :=
  if (strEndsWith k "_id" || k == "id") && pyTruthy v then
    match v with
    | .text s => if pyIsUUID s then .uuid (pyStrUUID s) else .text s
    | w => w
  else if strEndsWith k "_at" && pyTruthy v then
    match v with
    | .text s => if isIsoDatetime (normZ s) then .timestamp (normZ s) else .text s
    | w => w
  else v

/-- `_row_to_model` (base.py lines 39-54).  The typed record returned by
the repository is modelled as the coerced field map itself (the
`model_class(**row)` construction preserves the field values). -/
def rowToModel (r : Row) : Row := r.map (fun p => (p.1, coerceField p.1 p.2))

/-- The sqlite driver can bind `None`, numbers and strings; it cannot
bind a `uuid.UUID` object (binding one raises a `sqlite3.Error`
subclass).  `datetime` objects bind through the driver's default
adapter. -/
def bindable : SVal → Bool
  | .uuid _ => false
  | _ => true

/-! ### Generic async SQLite repository (`base.py`).

`Table` is the committed contents of one table.  The parameter
`ck : Row → Bool` models the store-side acceptance of a row (CHECK
constraints, NOT NULL columns, the column set of the table); the
`id TEXT PRIMARY KEY` declared by every entity table of this schema is
modelled explicitly.  Every method opens its own connection
(`sqlite_manager.py` lines 60-73) in the driver's manual-commit mode, so
a statement is persisted only when the method commits; the connection is
closed when the method's scoped block exits. -/

structure Table where
  rows : List Row
  deriving DecidableEq, Repr

/-- `get_by_id` (base.py lines 128-146): `SELECT * FROM t WHERE id = ?`
bound to `str(record_id)`, then `_row_to_model` on the first row. -/
def getByIdRow (tbl : Table) (idStr : String) : Option Row :=
  tbl.rows.find? (fun r => rowGet r "id" == some (.text idStr))

def get_by_id (tbl : Table) (idStr : String) : Option Row :=
  (getByIdRow tbl idStr).map rowToModel

/-- Lines 79-85 of `create`: assign a generated identity when absent or
falsy, stamp `created_at` when the key is absent.  `freshId` stands for
`str(uuid4())` (canonical lower-case dashed form) and `now` for
`datetime.datetime.now(datetime.UTC).isoformat()`. -/
def prepareCreateDict (data : Row) (freshId now : String) : Row :=
  let d1 := if !rowHasKey data "id" || !pyTruthy ((rowGet data "id").getD .null) then
      dictSet data "id" (.text freshId)
    else data
  if !rowHasKey d1 "created_at" then dictSet d1 "created_at" (.text now) else d1

/-- `_get_valid_columns` (base.py lines 111-126): keep the keys that are
valid identifiers; raise `ValueError` if that dropped any key. -/
def getValidColumns (d : Row) : Except PyError (List String) :=
  let validColumns := (rowKeys d).filter pyIsIdentifier
  if validColumns.length ≠ d.length then
    .error (.valueError "Invalid keys in data dictionary. Keys must be valid identifiers.")
  else .ok validColumns

/-- The rejection condition of `create`'s `INSERT` as the store sees it:
an unbindable parameter, an `id` PRIMARY KEY conflict, or a row the
table's declarative constraints refuse. -/
def insertRejected (ck : Row → Bool) (tbl : Table) (d : Row) : Bool :=
  d.any (fun p => !bindable p.2)
    || tbl.rows.any (fun r => rowGet r "id" == rowGet d "id")
    || !ck d

/-- `str(record.id)` for the model record returned by the repository: a
coerced `uuid.UUID` field prints as its canonical string; an uncoerced
raw string prints as itself. -/
def modelIdStr (rec : Row) : Option String :=
  match rowGet rec "id" with
  | some (.uuid s) => some s
  | some (.text s) => some s
  | _ => none

/-- `create` (base.py lines 56-109).  The input is the field map the
source obtains from the creation input (`model_dump()` for a model,
`cast` for a plain dict).  On the built `INSERT`: an unbindable
parameter, a PRIMARY KEY conflict on `id` or a store-side rejection is a
`sqlite3.Error`, caught at line 103 -- rollback and return `None`; a
`ValueError` (invalid key, or `UUID(...)` at line 102 on a malformed
id) propagates (line 109).  On success the row is committed (line 98)
and re-read through `get_by_id` on `UUID(data_dict["id"])`. -/
def create (ck : Row → Bool) (tbl : Table) (data : Row) (freshId now : String) :
    Except PyError (Option Row) × Table :=
  let d := prepareCreateDict data freshId now
  match getValidColumns d with
  | .error e => (.error e, tbl)
  | .ok _cols =>
    if insertRejected ck tbl d then
      (.ok none, tbl)
    else
      let tblc : Table := ⟨tbl.rows ++ [d]⟩
      match rowGet d "id" with
      | some (.text s) =>
        if pyIsUUID s then (.ok (get_by_id tblc (pyStrUUID s)), tblc)
        else (.error (.valueError "badly formed hexadecimal UUID string"), tblc)
      | some _ => (.error (.typeError "UUID argument must be a string"), tblc)
      | none => (.error (.typeError "UUID argument must be a string"), tblc)

/-- `_validate_filter_key` (base.py lines 183-189). -/
def validateFilterKey (k : String) : Except PyError Unit :=
  if pyIsIdentifier k then .ok () else .error (.invalidFilterKey k)

/-- The filter loop of `get_all`/`count` (base.py lines 161-167 and
279-285): validate each key in iteration order and collect the
`key = ?` conditions and parameters; the first invalid key raises
`InvalidFilterKeyError` before any query is built. -/
def buildConditions : List (String × SVal) → Except PyError (List String × List SVal)
  | [] => .ok ([], [])
  | (k, v) :: rest =>
    match validateFilterKey k with
    | .error e => .error e
    | .ok _ =>
      match buildConditions rest with
      | .ok (cs, ps) => .ok ((k ++ " = ?") :: cs, v :: ps)
      | .error e => .error e

/-- SQL equality `k = ?`: never true for a `NULL` parameter. -/
def sqlEqMatches (r : Row) (k : String) (v : SVal) : Bool :=
  match v with
  | .null => false
  | _ => rowGet r k == some v

def rowMatchesFilters (filters : List (String × SVal)) (r : Row) : Bool :=
  filters.all (fun p => sqlEqMatches r p.1 p.2)

def createdAtKey (r : Row) : String :=
  match rowGet r "created_at" with
  | some (.text s) => s
  | _ => ""

def insertByCreatedDesc (r : Row) : List Row → List Row
  | [] => [r]
  | x :: xs =>
    if createdAtKey x ≤ createdAtKey r then r :: x :: xs
    else x :: insertByCreatedDesc r xs

/-- `ORDER BY created_at DESC` (ISO timestamps compare correctly as
strings under the store's binary collation). -/
def orderByCreatedAtDesc (rows : List Row) : List Row :=
  rows.foldr insertByCreatedDesc []

/-- `get_all` (base.py lines 148-181).  The second component is the list
of SQL queries the call executed against the store: empty exactly when
the call raised before reaching `cursor.execute`. -/
def get_all (tblName : String) (tbl : Table) (skip limit : Nat)
    (filters : List (String × SVal)) :
    Except PyError (List Row) × List String :=
  match buildConditions filters with
  | .error e => (.error e, [])
  | .ok (cs, _ps) =>
    let whereClause := if cs.isEmpty then "" else " WHERE " ++ String.intercalate " AND " cs
    let query := "SELECT * FROM " ++ tblName ++ whereClause
      ++ " ORDER BY created_at DESC LIMIT ? OFFSET ?"
    let rows :=
      ((orderByCreatedAtDesc (tbl.rows.filter (rowMatchesFilters filters))).drop skip).take limit
    (.ok (rows.map rowToModel), [query])

/-- `count` (base.py lines 268-295), with the same executed-query log. -/
def count (tblName : String) (tbl : Table) (filters : List (String × SVal)) :
    Except PyError Nat × List String :=
  match buildConditions filters with
  | .error e => (.error e, [])
  | .ok (cs, _ps) =>
    let whereClause := if cs.isEmpty then "" else " WHERE " ++ String.intercalate " AND " cs
    let query := "SELECT COUNT(*) FROM " ++ tblName ++ whereClause
    (.ok (tbl.rows.filter (rowMatchesFilters filters)).length, [query])

/-- `update` (base.py lines 191-243).  The input field map is filtered
to the non-`None` values (the dict path at lines 204-208; the
`model_dump(exclude_unset=True, exclude_none=True)` path produces the
same shape).  When nothing remains, the current record is returned
without any statement being executed (lines 218-220).  Otherwise
`updated_at` is stamped and the `UPDATE` runs: a malformed SET clause or
unbindable parameter or store-side rejection is a `sqlite3.Error` --
rollback, return `None` (lines 238-241); else the change is committed
and the updated record (or `None` when no row matched) returned. -/
def update (ck : Row → Bool) (tbl : Table) (idStr : String) (data : Row) (now : String) :
    Except PyError (Option Row) × Table :=
  let dataDict := data.filter (fun p => p.2 != SVal.null)
  if dataDict.isEmpty then
    (.ok (get_by_id tbl idStr), tbl)
  else
    let d := dictSet dataDict "updated_at" (.text now)
    if (rowKeys d).any (fun k => !pyIsIdentifier k) || d.any (fun p => !bindable p.2) then
      (.ok none, tbl)
    else
      let applyUpd := fun (r : Row) => d.foldl (fun acc p => dictSet acc p.1 p.2) r
      let newRows := tbl.rows.map (fun r =>
        if rowGet r "id" == some (.text idStr) then applyUpd r else r)
      if newRows.any (fun r => !ck r) then (.ok none, tbl)
      else
        let rowcount := (tbl.rows.filter (fun r => rowGet r "id" == some (.text idStr))).length
        let tblc : Table := ⟨newRows⟩
        if rowcount > 0 then (.ok (get_by_id tblc idStr), tblc) else (.ok none, tblc)

/-! ### The bootstrapped schema (`sqlite_manager.py`, `_init_database`). -/

/-- The tables created by `_init_database` (sqlite_manager.py lines
83-157).  Note the product-cart association table is named
`cart_product`; no table named `product_cart` exists. -/
def schemaTables : List String :=
  ["users", "carts", "user_cart", "products", "cart_product", "cart_product_archive"]

def schemaHasTable (t : String) : Bool := schemaTables.contains t

/-- A row of `user_cart` (membership): PRIMARY KEY (user_id, cart_id),
role CHECK-ed against {owner, editor, viewer}, created_at defaulted to
CURRENT_TIMESTAMP. -/
structure UserCartRow where
  user_id : String
  cart_id : String
  role : String
  created_at : String
  deriving DecidableEq, Repr

/-- A row of `cart_product` (containment). -/
structure CartProductRow where
  cart_id : String
  product_id : String
  quantity : Int
  added_at : String
  deriving DecidableEq, Repr

/-- A row of `cart_product_archive`. -/
structure ArchiveRow where
  cart_id : String
  product_id : String
  quantity : Int
  added_at : String
  removed_at : String
  deriving DecidableEq, Repr

/-- The committed database state for the entity-level operations. -/
structure DB where
  users : Table
  carts : Table
  products : Table
  user_cart : List UserCartRow
  cart_product : List CartProductRow
  cart_product_archive : List ArchiveRow
  deriving DecidableEq, Repr

/-- `cursor.execute` on a statement whose target table may not exist:
sqlite resolves the table name first and raises
`sqlite3.OperationalError` (`no such table`) when it is absent from the
bootstrapped schema. -/
def executeOnTable {α : Type} (t : String) (act : Unit → α) : Except PyError α :=
  if schemaHasTable t then .ok (act ()) else .error (.sqliteError ("no such table: " ++ t))

/-! ### Cart repository (`cart_repository.py`). -/

/-- `create_cart_with_owner` (cart_repository.py lines 142-189).
Two `INSERT`s run on the method's own connection; the method never calls
`commit`, so the transaction is discarded when the connection closes in
every path (the `conn.rollback()` at line 188 is additionally not
awaited, leaving an unrun coroutine).  The re-read at line 184 goes
through `get_by_id`, which opens a separate connection and sees only the
committed state.  `dataId`/`name`/`createdAt` are `str(data.id)`,
`data.name`, `data.created_at.isoformat()`; `freshId` is the
`str(uuid4())` fallback of lines 154-158 (dead for `CartCreate` inputs,
whose `id` is always set). -/
def create_cart_with_owner (db : DB) (dataId : Option String) (name _createdAt : String)
    (ownerId freshId : String) : Except PyError (Option Row) × DB :=
  let cartId := match dataId with | some s => s | none => freshId
  -- INSERT INTO carts (id, name, created_at): id PRIMARY KEY, CHECK length(name) >= 1
  if db.carts.rows.any (fun r => rowGet r "id" == some (.text cartId))
      || name.data.isEmpty then
    (.ok none, db)
  else
    -- INSERT INTO user_cart (user_id, cart_id, 'owner'):
    -- FOREIGN KEY user_id -> users(id) (cart_id resolves against the
    -- pending insert above); PRIMARY KEY (user_id, cart_id)
    if !(db.users.rows.any (fun r => rowGet r "id" == some (.text ownerId)))
        || db.user_cart.any (fun m => m.user_id == ownerId && m.cart_id == cartId) then
      (.ok none, db)
    else
      -- line 184: return await self.get_by_id(UUID(cart_id)) -- fresh
      -- connection, so only the committed carts table is visible; the
      -- pending transaction is then discarded on close
      if pyIsUUID cartId then (.ok (get_by_id db.carts (pyStrUUID cartId)), db)
      else (.error (.valueError "badly formed hexadecimal UUID string"), db)

/-- `get_cart_owner` (cart_repository.py lines 123-140).  Line 139 is
`row = cursor.fetchone()` with no `await`: `row` is bound to the
coroutine object, which is truthy, so line 140 evaluates `row[0]` and
raises `TypeError` -- on every input, whether or not an owner row
exists. -/
def get_cart_owner (_db : DB) (_cartId : String) : Except PyError (Option String) :=
  .error (.typeError "this coroutine object is not subscriptable")

/-- The semantics of the `INSERT OR REPLACE INTO user_cart` statement
(cart_repository.py lines 57-63): a row with the same
`(user_id, cart_id)` primary key is deleted and the new row inserted,
with `role` from the parameters and `created_at` from the column default
`CURRENT_TIMESTAMP`. -/
def insertOrReplaceUserCart (memb : List UserCartRow) (userId cartId role now : String) :
    List UserCartRow :=
  (memb.filter (fun m => !(m.user_id == userId && m.cart_id == cartId)))
    ++ [⟨userId, cartId, role, now⟩]

/-- `add_user_to_cart` (cart_repository.py lines 48-69).  A
`sqlite3.Error` (foreign-key or role-CHECK violation) returns `False`;
otherwise the method returns `True`.  No `commit` is ever issued, so the
replacement performed by `insertOrReplaceUserCart` on the connection is
discarded when the connection closes and the committed state is
unchanged in every path. -/
def add_user_to_cart (db : DB) (userId cartId role : String) (_now : String) : Bool × DB :=
  if !(db.users.rows.any (fun r => rowGet r "id" == some (.text userId)))
      || !(db.carts.rows.any (fun r => rowGet r "id" == some (.text cartId)))
      || !(["owner", "editor", "viewer"].contains role) then
    (false, db)
  else
    (true, db)

/-! ### Product repository (`product_repository.py`).  All three
cart-association methods execute statements against a table named
`product_cart`, which the schema bootstrapper never creates (it creates
`cart_product`). -/

/-- `add_product_to_cart` (product_repository.py lines 44-63):
`INSERT OR IGNORE INTO product_cart ...` raises
`sqlite3.OperationalError` (`no such table: product_cart`), which the
`except sqlite3.Error` clause turns into `False`; nothing is written. -/
def add_product_to_cart (db : DB) (_productId _cartId : String) : Bool × DB :=
  match executeOnTable "product_cart" (fun _ => ()) with
  | .ok _ => (true, db)     -- would still persist nothing: no commit follows
  | .error _ => (false, db)

/-- `remove_product_from_cart` (product_repository.py lines 65-84): the
`DELETE FROM product_cart` statement raises
`sqlite3.OperationalError`, and the method has no `try`/`except`, so the
error propagates; no row is deleted and no archive row is written (the
archiving step is only a TODO comment at line 79 -- no statement in the
method touches `cart_product_archive`). -/
def remove_product_from_cart (db : DB) (_productId _cartId : String) :
    Except PyError Bool × DB :=
  match executeOnTable "product_cart" (fun _ => ()) with
  | .ok _ => (.ok false, db)  -- unreachable: the schema has no product_cart table
  | .error e => (.error e, db)

/-- `get_products_in_cart` (product_repository.py lines 86-104): the
`SELECT ... JOIN product_cart` raises `sqlite3.OperationalError`
(`no such table`), and the method has no `try`/`except`.  (Were the
table present, line 103 `rows = cursor.fetchall()` lacks an `await`, so
iterating the coroutine would raise `TypeError`.) -/
def get_products_in_cart (_db : DB) (_cartId : String) : Except PyError (List Row) :=
  match executeOnTable "product_cart" (fun _ => ()) with
  | .ok _ => .error (.typeError "this coroutine object is not iterable")
  | .error e => .error e

/-! ### Transaction manager (`sqlite_manager.py` lines 19-45). -/

/-- One sqlite connection as the transaction manager sees it: the last
committed state of the store and the connection-local current state. -/
structure Conn (α : Type) where
  committed : α
  current : α
  deriving DecidableEq, Repr

/-- `begin_transaction` (lines 25-27): `BEGIN TRANSACTION` opens an
explicit transaction; the visible state does not change. -/
def begin_transaction {α : Type} (c : Conn α) : Conn α := c

/-- `commit` (lines 29-31). -/
def commit {α : Type} (c : Conn α) : Conn α := { c with committed := c.current }

/-- `rollback` (lines 33-35). -/
def rollback {α : Type} (c : Conn α) : Conn α := { c with current := c.committed }

/-- The scoped `transaction()` block (lines 37-45).  The unit of work is
a state transformer on the connection that finishes normally or raises.
Normal exit: `commit`.  Any raised failure: `rollback`, then the
original failure is re-raised unchanged. -/
def transaction {α ε : Type} (body : Conn α → Except ε Unit × Conn α) (c : Conn α) :
    Except ε Unit × Conn α :=
  match body (begin_transaction c) with
  | (.ok _, c1) => (.ok (), commit c1)
  | (.error e, c1) => (.error e, rollback c1)

/-! ### Factories (`repositories/factory.py`, `db/__init__.py`). -/

/-- The abstract steps of a factory `get_*` method, read off the source
line by line. -/
inductive FStep where
  | checkCache        -- `if key not in <cache>`
  | acquireLock       -- `async with <lock>`
  | recheckCache      -- second membership check inside the lock
  | constructInstance -- construct the concrete instance
  | runInitialize     -- `await manager.initialize()` (schema bootstrap)
  | insertCache       -- `<cache>[key] = instance`
  | releaseLock       -- leave the `async with <lock>` block
  | returnCached      -- `return <cache>[key]`
  deriving DecidableEq, Repr

/-- `AsyncRepositoryFactory.get_user_repository` (factory.py lines
20-40): plain check, construct, insert -- no lock is acquired, there is
no second check, and `initialize()` is never called. -/
def get_user_repository_steps : List FStep :=
  [.checkCache, .constructInstance, .insertCache, .returnCached]

/-- `AsyncDatabaseFactory.get_manager` (db/__init__.py lines 26-62):
check, then double-checked locking around construct + initialize +
insert. -/
def get_manager_steps : List FStep :=
  [.checkCache, .acquireLock, .recheckCache, .constructInstance,
   .runInitialize, .insertCache, .releaseLock, .returnCached]

/-- The `AsyncRepositoryFactory._repositories` cache restricted to one
key, with an instance counter standing for construction side effects. -/
structure FacState where
  cache : Option Nat
  constructed : Nat
  nextId : Nat
  deriving DecidableEq, Repr

/-- One complete `get_user_repository()` call.  Its body contains no
`await` between the membership check and the cache insert (factory.py
lines 27-38: a synchronous import, a synchronous constructor), so under
the cooperative event loop the whole sequence runs as one atomic block
and an interleaving of calls is a sequence of such blocks. -/
def getUserRepositoryCall (s : FacState) : Nat × FacState :=
  match s.cache with
  | some i => (i, s)
  | none => (s.nextId, ⟨some s.nextId, s.constructed + 1, s.nextId + 1⟩)

/-- `n` concurrent first-time callers as the event loop schedules them:
each runs its atomic call block to completion in turn. -/
def runCallers : Nat → FacState → FacState
  | 0, s => s
  | n + 1, s => runCallers n (getUserRepositoryCall s).2

/-- The empty factory cache at process start. -/
def initialFacState : FacState := ⟨none, 0, 0⟩

/-! ### Concrete fixtures used by witnesses and counterexamples. -/

def uuidAlice : String := "aaaaaaaa-aaaa-aaaa-aaaa-aaaaaaaaaaaa"

def uuidCart1 : String := "cccccccc-cccc-cccc-cccc-cccccccccccc"

def uuidMilk : String := "eeeeeeee-eeee-eeee-eeee-eeeeeeeeeeee"

def isoT0 : String := "2024-01-01T00:00:00+00:00"

def isoT1 : String := "2024-01-02T03:04:05+00:00"

def aliceRow : Row :=
  [("id", .text uuidAlice), ("username", .text "alice123"),
   ("first_name", .text "Alice"), ("user_tg_id", .int 42),
   ("created_at", .text isoT0)]

def cart1Row : Row :=
  [("id", .text uuidCart1), ("name", .text "Groceries"), ("created_at", .text isoT0)]

/-- The creation input `{name: "Milk"}` as a plain field map. -/
def milkCreateRow : Row := [("name", .text "Milk")]

/-- The row `create` commits for `milkCreateRow` with generated id
`uuidMilk` and timestamp `isoT1`. -/
def milkStoredRow : Row :=
  [("name", .text "Milk"), ("id", .text uuidMilk), ("created_at", .text isoT1)]

/-- The coerced model record for `milkStoredRow`. -/
def milkModelRow : Row :=
  [("name", .text "Milk"), ("id", .uuid uuidMilk), ("created_at", .timestamp isoT1)]

/-- A committed store holding user alice, no carts. -/
def dbUsersOnly : DB :=
  { users := ⟨[aliceRow]⟩, carts := ⟨[]⟩, products := ⟨[]⟩,
    user_cart := [], cart_product := [], cart_product_archive := [] }

/-- A committed store holding alice, one cart, and alice's owner
membership of it. -/
def dbWithOwner : DB :=
  { users := ⟨[aliceRow]⟩, carts := ⟨[cart1Row]⟩, products := ⟨[]⟩,
    user_cart := [⟨uuidAlice, uuidCart1, "owner", isoT0⟩],
    cart_product := [], cart_product_archive := [] }

/-! ## Helper lemmas -/

theorem buildConditions_error_of_invalid (filters : List (String × SVal))
    (h : ∃ p ∈ filters, pyIsIdentifier p.1 = false) :
    ∃ k, pyIsIdentifier k = false
      ∧ buildConditions filters = .error (.invalidFilterKey k) := by
  induction filters with
  | nil => rcases h with ⟨p, hp, _⟩; cases hp
  | cons hd tl ih =>
    obtain ⟨k0, v0⟩ := hd
    by_cases hk : pyIsIdentifier k0 = true
    · have h2 : ∃ p ∈ tl, pyIsIdentifier p.1 = false := by
        rcases h with ⟨p, hp, hbad⟩
        rcases List.mem_cons.mp hp with rfl | hmem
        · rw [hk] at hbad; cases hbad
        · exact ⟨p, hmem, hbad⟩
      rcases ih h2 with ⟨k, hkbad, heq⟩
      exact ⟨k, hkbad, by simp [buildConditions, validateFilterKey, hk, heq]⟩
    · rw [Bool.not_eq_true] at hk
      exact ⟨k0, hk, by simp [buildConditions, validateFilterKey, hk]⟩

theorem runCallers_cached (n : Nat) (s : FacState) (i : Nat) (h : s.cache = some i) :
    runCallers n s = s := by
  induction n with
  | zero => rfl
  | succ m ih => simp [runCallers, getUserRepositoryCall, h, ih]

theorem rowKeys_dictSet (r : Row) (k0 : String) (v : SVal) :
    rowKeys (dictSet r k0 v)
      = if rowHasKey r k0 then rowKeys r else rowKeys r ++ [k0] := by
  unfold dictSet rowKeys
  split
  · next h =>
    rw [List.map_map]
    apply List.map_congr_left
    intro p _
    by_cases hpk : (p.1 == k0) = true
    · have : p.1 = k0 := by simpa using hpk
      simp [Function.comp, hpk, this]
    · rw [Bool.not_eq_true] at hpk
      simp [Function.comp, hpk]
  · simp

theorem mem_rowKeys_dictSet (r : Row) (k0 k : String) (v : SVal)
    (h : k ∈ rowKeys r) : k ∈ rowKeys (dictSet r k0 v) := by
  rw [rowKeys_dictSet]
  split
  · exact h
  · exact List.mem_append_left _ h

theorem mem_rowKeys_prepareCreateDict (data : Row) (fid now k : String)
    (h : k ∈ rowKeys data) : k ∈ rowKeys (prepareCreateDict data fid now) := by
  unfold prepareCreateDict
  dsimp only
  split <;> split <;>
    first
      | exact mem_rowKeys_dictSet _ _ _ _ (mem_rowKeys_dictSet _ _ _ _ h)
      | exact mem_rowKeys_dictSet _ _ _ _ h
      | exact h

theorem getValidColumns_error_of_invalid (d : Row)
    (h : ∃ k ∈ rowKeys d, pyIsIdentifier k = false) :
    getValidColumns d
      = .error (.valueError
          "Invalid keys in data dictionary. Keys must be valid identifiers.") := by
  unfold getValidColumns
  have hlt : ((rowKeys d).filter pyIsIdentifier).length < (rowKeys d).length := by
    apply List.length_filter_lt_length_iff_exists.mpr
    rcases h with ⟨k, hk, hbad⟩
    exact ⟨k, hk, by simp [hbad]⟩
  have hlen : (rowKeys d).length = d.length := List.length_map _ _
  dsimp only
  rw [if_pos (by omega)]

theorem getValidColumns_ok_of_valid (d : Row)
    (h : ∀ k ∈ rowKeys d, pyIsIdentifier k = true) :
    getValidColumns d = .ok (rowKeys d) := by
  unfold getValidColumns
  dsimp only
  have hlen : (rowKeys d).length = d.length := by simp [rowKeys]
  rw [List.filter_eq_self.mpr (fun k hk => h k hk), if_neg (by omega)]

theorem rowGet_rowToModel (r : Row) (k : String) :
    rowGet (rowToModel r) k = (rowGet r k).map (coerceField k) := by
  induction r with
  | nil => rfl
  | cons p tl ih =>
    obtain ⟨k0, v0⟩ := p
    unfold rowToModel rowGet at *
    simp only [List.map_cons]
    by_cases h : (k0 == k) = true
    · have hk : k0 = k := by simpa using h
      subst hk
      rw [List.find?_cons_of_pos _ (by simp),
        List.find?_cons_of_pos _ (by simp)]
      simp
    · rw [List.find?_cons_of_neg _ (by simpa using h),
        List.find?_cons_of_neg _ (by simpa using h)]
      exact ih

theorem coerceField_id_text (q : String) (hq : strToLower q = q) :
    coerceField "id" (.text q) = .uuid q ∨ coerceField "id" (.text q) = .text q := by
  unfold coerceField
  by_cases h1 : ((strEndsWith "id" "_id" || "id" == "id") && pyTruthy (.text q)) = true
  · rw [if_pos h1]
    by_cases h2 : pyIsUUID q = true
    · left
      show (if pyIsUUID q then SVal.uuid (pyStrUUID q) else .text q) = _
      rw [if_pos h2]
      unfold pyStrUUID
      rw [hq]
    · right
      show (if pyIsUUID q then SVal.uuid (pyStrUUID q) else .text q) = _
      rw [if_neg h2]
  · right
    rw [if_neg h1,
      if_neg (by simp [show strEndsWith "id" "_at" = false from rfl])]

theorem char_toNat_ofNat_valid {n : Nat} (h : n < 55296) : (Char.ofNat n).toNat = n := by
  have hv : n.isValidChar := Or.inl h
  simp [Char.ofNat, hv, Char.ofNatAux, Char.toNat, UInt32.toNat, BitVec.toNat_ofNatLt]

theorem charIsUpperAZ_iff (c : Char) :
    charIsUpperAZ c = true ↔ 65 ≤ c.toNat ∧ c.toNat ≤ 90 := by
  have h1 : ('A' ≤ c) ↔ 65 ≤ c.toNat := by rw [Char.le_def]; rfl
  have h2 : (c ≤ 'Z') ↔ c.toNat ≤ 90 := by rw [Char.le_def]; rfl
  simp [charIsUpperAZ, ← h1, ← h2]

theorem charToLower_toNat (c : Char) :
    (charToLower c).toNat = if charIsUpperAZ c then c.toNat + 32 else c.toNat := by
  unfold charToLower
  by_cases h : charIsUpperAZ c = true
  · rw [if_pos h, if_pos h]
    have hle : c.toNat ≤ 90 := ((charIsUpperAZ_iff c).mp h).2
    exact char_toNat_ofNat_valid (by omega)
  · rw [Bool.not_eq_true] at h
    rw [h]
    simp

theorem charToLower_not_upper (c : Char) : charIsUpperAZ (charToLower c) = false := by
  by_cases h : charIsUpperAZ c = true
  · have ht := charToLower_toNat c
    rw [if_pos h] at ht
    rw [charIsUpperAZ_iff] at h
    by_contra hcon
    rw [Bool.not_eq_false, charIsUpperAZ_iff, ht] at hcon
    omega
  · rw [Bool.not_eq_true] at h
    unfold charToLower
    rw [h]
    simp [h]

theorem charToLower_eq_self_of_not_upper {c : Char} (h : charIsUpperAZ c = false) :
    charToLower c = c := by
  unfold charToLower
  rw [h]
  simp

theorem charToLower_idem (c : Char) :
    charToLower (charToLower c) = charToLower c :=
  charToLower_eq_self_of_not_upper (charToLower_not_upper c)

theorem strToLower_idem (s : String) :
    strToLower (strToLower s) = strToLower s := by
  unfold strToLower
  apply congrArg String.mk
  rw [List.map_map]
  exact List.map_congr_left (fun c _ => charToLower_idem c)

/-! ## The claims -/

/-- C3: for every filters mapping containing a key that is not a valid
bare identifier, `get_all` and `count` fail by raising the dedicated
invalid-filter-key condition (`InvalidFilterKeyError`), and no query is
executed against the store (the executed-query log is empty); the
failure propagates to the caller instead of becoming an empty/zero
result. -/
theorem invalid_filter_key_never_reaches_store
    (tblName : String) (tbl : Table) (skip limit : Nat)
    (filters : List (String × SVal)) (k : String) (v : SVal)
    (hmem : (k, v) ∈ filters) (hbad : pyIsIdentifier k = false) :
    ∃ kk, pyIsIdentifier kk = false
      ∧ get_all tblName tbl skip limit filters = (.error (.invalidFilterKey kk), [])
      ∧ count tblName tbl filters = (.error (.invalidFilterKey kk), []) := by
  rcases buildConditions_error_of_invalid filters ⟨(k, v), hmem, hbad⟩ with ⟨kk, h1, h2⟩
  exact ⟨kk, h1, by simp [get_all, h2], by simp [count, h2]⟩

theorem invalid_filter_key_never_reaches_store_witness :
    ∃ kk, pyIsIdentifier kk = false
      ∧ get_all "users" ⟨[]⟩ 0 100 [("bad key", .int 1)]
          = (.error (.invalidFilterKey kk), [])
      ∧ count "users" ⟨[]⟩ [("bad key", .int 1)]
          = (.error (.invalidFilterKey kk), []) :=
  invalid_filter_key_never_reaches_store "users" ⟨[]⟩ 0 100
    [("bad key", .int 1)] "bad key" (.int 1) (by simp) (by decide)

/-- C5: for every existing record, `update` with an input that leaves no
fields after filtering out unset/`None` values returns the current
stored record unchanged and issues no write: the committed table is
returned untouched, so in particular the record's `updated_at` is
unchanged. -/
theorem update_no_fields_no_write (ck : Row → Bool) (tbl : Table) (idStr : String)
    (data : Row) (now : String) (r : Row)
    (hnull : ∀ p ∈ data, p.2 = SVal.null)
    (hexist : get_by_id tbl idStr = some r) :
    update ck tbl idStr data now = (.ok (some r), tbl) := by
  have hfilter : data.filter (fun p => p.2 != SVal.null) = [] :=
    List.filter_eq_nil_iff.mpr (fun p hp => by simp [hnull p hp])
  simp [update, hfilter, hexist]

theorem update_no_fields_no_write_witness :
    update (fun _ => true) ⟨[cart1Row]⟩ uuidCart1 ([] : Row) isoT1
      = (.ok (some (rowToModel cart1Row)), ⟨[cart1Row]⟩) :=
  update_no_fields_no_write (fun _ => true) ⟨[cart1Row]⟩ uuidCart1 [] isoT1
    (rowToModel cart1Row) (by simp) (by rfl)

/-- C8: the scoped `transaction()` block commits on normal exit of the
unit of work, and on any failure raised inside the block it rolls the
connection back and re-raises the original failure unchanged; when the
unit of work did not itself commit, the rolled-back connection is
exactly the original committed state. -/
theorem transaction_commits_or_rolls_back {α ε : Type}
    (body : Conn α → Except ε Unit × Conn α) (c : Conn α) :
    (∀ c1, body (begin_transaction c) = (.ok (), c1) →
      transaction body c = (.ok (), commit c1) ∧ (commit c1).committed = c1.current)
    ∧ (∀ e c1, body (begin_transaction c) = (.error e, c1) →
      transaction body c = (.error e, rollback c1)
        ∧ (rollback c1).current = c1.committed
        ∧ (c1.committed = c.committed → rollback c1 = ⟨c.committed, c.committed⟩)) := by
  constructor
  · intro c1 h
    exact ⟨by simp [transaction, h], rfl⟩
  · intro e c1 h
    refine ⟨by simp [transaction, h], rfl, ?_⟩
    intro hc
    simp [rollback, hc]

theorem transaction_commits_or_rolls_back_witness :
    transaction (fun cn => (.ok (), ⟨cn.committed, 5⟩)) (⟨0, 0⟩ : Conn Nat)
        = ((.ok () : Except String Unit), commit ⟨0, 5⟩)
      ∧ transaction (fun cn => (.error "boom", ⟨cn.committed, 7⟩)) (⟨0, 0⟩ : Conn Nat)
        = ((.error "boom" : Except String Unit), rollback ⟨0, 7⟩) :=
  ⟨((transaction_commits_or_rolls_back
      (fun cn => (.ok (), ⟨cn.committed, 5⟩)) ⟨0, 0⟩).1 ⟨0, 5⟩ rfl).1,
   ((transaction_commits_or_rolls_back
      (fun cn => (.error "boom", ⟨cn.committed, 7⟩)) ⟨0, 0⟩).2 "boom" ⟨0, 7⟩ rfl).1⟩

/-- C9, counterexample: the claim says first-time
`get_user_repository()` calls are serialized by a mutual-exclusion
guard with a re-check after acquiring it, running the bootstrap once.
The step sequence of `get_user_repository` (factory.py lines 20-40)
contains no lock acquisition, no re-check and no `initialize` call. -/
theorem get_user_repository_no_lock_counterexample :
    FStep.acquireLock ∉ get_user_repository_steps
      ∧ FStep.recheckCache ∉ get_user_repository_steps
      ∧ FStep.runInitialize ∉ get_user_repository_steps := by decide

/-- C9, amended: when `n ≥ 1` callers concurrently make the first
`get_user_repository()` call, exactly one instance is constructed and
cached -- not because of a lock, but because the check-construct-insert
sequence contains no suspension point and so runs atomically under the
cooperative scheduler; `get_user_repository` acquires no
mutual-exclusion guard and never runs `initialize()`; the
double-checked locking (with the single `initialize()` bootstrap)
belongs to `AsyncDatabaseFactory.get_manager`. -/
theorem get_user_repository_single_construction (n : Nat) (h : 1 ≤ n) :
    (runCallers n initialFacState).constructed = 1
      ∧ (runCallers n initialFacState).cache = some 0
      ∧ FStep.acquireLock ∉ get_user_repository_steps
      ∧ FStep.runInitialize ∉ get_user_repository_steps
      ∧ List.Sublist [FStep.acquireLock, FStep.recheckCache, FStep.constructInstance,
          FStep.runInitialize, FStep.insertCache, FStep.releaseLock] get_manager_steps := by
  obtain ⟨m, rfl⟩ : ∃ m, n = m + 1 := ⟨n - 1, by omega⟩
  have h1 : runCallers (m + 1) initialFacState
      = runCallers m ⟨some 0, 1, 1⟩ := rfl
  have h2 : runCallers m ⟨some 0, 1, 1⟩ = ⟨some 0, 1, 1⟩ :=
    runCallers_cached m _ 0 rfl
  refine ⟨?_, ?_, by decide, by decide, by decide⟩ <;> rw [h1, h2]

/-- C1: whenever `create` succeeds with a returned record, `get_by_id`
on that record's identity (against the state `create` committed) yields
a record equal to the one `create` returned in every field -- in
particular the update timestamp. -/
theorem create_then_get_by_id_roundtrip (ck : Row → Bool) (tbl : Table) (data : Row)
    (freshId now : String) (rec : Row) (tblc : Table)
    (h : create ck tbl data freshId now = (.ok (some rec), tblc)) :
    ∃ q, modelIdStr rec = some q ∧ get_by_id tblc q = some rec := by
  unfold create at h
  dsimp only at h
  split at h
  · simp at h
  · split at h
    · simp at h
    · split at h
      · rename_i s heq
        split at h
        · rename_i hu
          rw [Prod.mk.injEq] at h
          obtain ⟨h1, h2⟩ := h
          rw [Except.ok.injEq] at h1
          subst h2
          refine ⟨pyStrUUID s, ?_, h1⟩
          unfold get_by_id at h1
          obtain ⟨r0, hr0, hr0m⟩ := Option.map_eq_some'.mp h1
          have hfound := List.find?_some hr0
          have hr0id : rowGet r0 "id" = some (.text (pyStrUUID s)) := by
            simpa using hfound
          have hrecid : rowGet rec "id"
              = some (coerceField "id" (.text (pyStrUUID s))) := by
            rw [← hr0m, rowGet_rowToModel, hr0id]
            rfl
          have hq : strToLower (pyStrUUID s) = pyStrUUID s := strToLower_idem s
          unfold modelIdStr
          rw [hrecid]
          rcases coerceField_id_text (pyStrUUID s) hq with hcf | hcf <;> rw [hcf]
        · simp at h
      · simp at h
      · simp at h

theorem create_then_get_by_id_roundtrip_witness :
    ∃ q, modelIdStr milkModelRow = some q
      ∧ get_by_id ⟨[milkStoredRow]⟩ q = some milkModelRow :=
  create_then_get_by_id_roundtrip (fun _ => true) ⟨[]⟩ milkCreateRow
    uuidMilk isoT1 milkModelRow ⟨[milkStoredRow]⟩ rfl

/-- C4: `create` distinguishes its two failure kinds: a store-level
rejection of the `INSERT` (constraint violation, duplicate id,
unbindable parameter) yields `.ok none` -- the absence value, no raise
-- with the committed table unchanged (rollback); a caller-supplied
field name that is not a valid bare identifier raises the `ValueError`
validation failure instead of returning an absence value. -/
theorem create_failure_discipline :
    (∀ (ck : Row → Bool) (tbl : Table) (data : Row) (freshId now : String),
      (∃ p ∈ data, pyIsIdentifier p.1 = false) →
      create ck tbl data freshId now
        = (.error (.valueError
            "Invalid keys in data dictionary. Keys must be valid identifiers."), tbl))
    ∧ (∀ (ck : Row → Bool) (tbl : Table) (data : Row) (freshId now : String),
      (∀ k ∈ rowKeys (prepareCreateDict data freshId now), pyIsIdentifier k = true) →
      insertRejected ck tbl (prepareCreateDict data freshId now) = true →
      create ck tbl data freshId now = (.ok none, tbl)) := by
  constructor
  · intro ck tbl data freshId now h
    rcases h with ⟨p, hp, hbad⟩
    have hk : p.1 ∈ rowKeys (prepareCreateDict data freshId now) :=
      mem_rowKeys_prepareCreateDict data freshId now p.1
        (List.mem_map_of_mem _ hp)
    have hcols := getValidColumns_error_of_invalid
      (prepareCreateDict data freshId now) ⟨p.1, hk, hbad⟩
    simp [create, hcols]
  · intro ck tbl data freshId now hvalid hrej
    have hcols := getValidColumns_ok_of_valid
      (prepareCreateDict data freshId now) hvalid
    simp [create, hcols, hrej]

theorem create_failure_discipline_witness :
    create (fun _ => true) ⟨[]⟩ [("bad key", .int 1)] uuidMilk isoT0
        = (.error (.valueError
            "Invalid keys in data dictionary. Keys must be valid identifiers."), ⟨[]⟩)
      ∧ create (fun _ => false) ⟨[]⟩ milkCreateRow uuidMilk isoT0
        = (.ok none, ⟨[]⟩) :=
  ⟨create_failure_discipline.1 (fun _ => true) ⟨[]⟩ [("bad key", .int 1)] uuidMilk isoT0
      ⟨("bad key", .int 1), by simp, by decide⟩,
    create_failure_discipline.2 (fun _ => false) ⟨[]⟩ milkCreateRow uuidMilk isoT0
      (by decide) (by decide)⟩

/-- C2 (code-bug evidence): with a committed store holding user alice
and no carts, `create_cart_with_owner` on a valid input returns `None`
and commits nothing -- the method never calls `commit`, so the connection
close discards both `INSERT`s, and the re-read runs on a separate
connection that sees only the committed state; and `get_cart_owner`
raises `TypeError` on every call because its row fetch is not awaited.
The claim's "`get_cart_owner` returns exactly the supplied owner id
for every successfully created cart" has no successful instance and its
creation step persists neither the cart nor the owner membership. -/
theorem create_cart_with_owner_never_persists :
    create_cart_with_owner dbUsersOnly (some uuidCart1) "Groceries" isoT0
        uuidAlice uuidMilk
      = (.ok none, dbUsersOnly)
      ∧ get_cart_owner dbUsersOnly uuidCart1
        = .error (.typeError "this coroutine object is not subscriptable")
      ∧ dbUsersOnly.user_cart = [] := by
  refine ⟨rfl, rfl, rfl⟩

/-- C6 (code-bug evidence): the containment methods of the product
repository target a table named `product_cart`, which the schema
bootstrapper never creates (it creates `cart_product`), so
`add_product_to_cart` always returns `False` with the store unchanged
and `get_products_in_cart` always raises the no-such-table store error
-- the claim's add/list/remove round trip has no successful instance. -/
theorem product_cart_table_missing (db : DB) (pid cid : String) :
    add_product_to_cart db pid cid = (false, db)
      ∧ get_products_in_cart db cid
        = .error (.sqliteError "no such table: product_cart") :=
  ⟨rfl, rfl⟩

/-- C7 (code-bug evidence): `remove_product_from_cart` raises the
no-such-table store error (its statements target the nonexistent
`product_cart`) and leaves the store -- in particular
`cart_product_archive` -- unchanged; no code path of the method writes
an archive row (the archiving step is an unimplemented TODO), so no
historical copy of a containment entry is ever retained on removal. -/
theorem remove_product_never_archives (db : DB) (pid cid : String) :
    remove_product_from_cart db pid cid
      = (.error (.sqliteError "no such table: product_cart"), db)
      ∧ (remove_product_from_cart db pid cid).2.cart_product_archive
        = db.cart_product_archive :=
  ⟨rfl, rfl⟩

/-- C10, counterexample: with alice holding the `owner` membership of
cart1 in the committed store, a second `add_user_to_cart` for the same
pair with role `viewer` returns `True` -- but the committed membership
row is not replaced: it still carries role `owner` and its original
creation timestamp, because the method never commits its
`INSERT OR REPLACE`. -/
theorem add_user_to_cart_overwrite_not_persisted :
    (add_user_to_cart dbWithOwner uuidAlice uuidCart1 "viewer" isoT1).1 = true
      ∧ (add_user_to_cart dbWithOwner uuidAlice uuidCart1 "viewer" isoT1).2.user_cart
        = [⟨uuidAlice, uuidCart1, "owner", isoT0⟩] := by
  refine ⟨by decide, by decide⟩

/-- C10, amended: for a user and cart present in the store and a valid
role, a repeated `add_user_to_cart` for an existing (user, cart) pair
succeeds (returns true) and does not fail on the pair-uniqueness
constraint: its `INSERT OR REPLACE` statement replaces the membership
row inside the connection's transaction -- the only row for the pair
afterwards carries the new role and a reset creation timestamp -- but
the method never commits, so the replacement is discarded on connection
close and the committed store is returned unchanged. -/
theorem add_user_to_cart_replaces_only_in_transaction (db : DB) (u c role now : String)
    (hu : db.users.rows.any (fun r => rowGet r "id" == some (.text u)) = true)
    (hc : db.carts.rows.any (fun r => rowGet r "id" == some (.text c)) = true)
    (hrole : (["owner", "editor", "viewer"].contains role) = true) :
    add_user_to_cart db u c role now = (true, db)
      ∧ (insertOrReplaceUserCart db.user_cart u c role now).filter
          (fun m => m.user_id == u && m.cart_id == c) = [⟨u, c, role, now⟩] := by
  constructor
  · have hr : role = "owner" ∨ role = "editor" ∨ role = "viewer" := by
      simpa using hrole
    simp [add_user_to_cart, hu, hc]
    tauto
  · unfold insertOrReplaceUserCart
    rw [List.filter_append]
    have h1 : ((db.user_cart.filter
        (fun m => !(m.user_id == u && m.cart_id == c))).filter
          (fun m => m.user_id == u && m.cart_id == c)) = [] := by
      rw [List.filter_filter]
      apply List.filter_eq_nil_iff.mpr
      intro m _
      cases hmc : (m.user_id == u && m.cart_id == c) <;> simp [hmc]
    rw [h1]
    simp

theorem add_user_to_cart_replaces_only_in_transaction_witness :
    add_user_to_cart dbWithOwner uuidAlice uuidCart1 "viewer" isoT1 = (true, dbWithOwner)
      ∧ (insertOrReplaceUserCart dbWithOwner.user_cart uuidAlice uuidCart1
          "viewer" isoT1).filter
          (fun m => m.user_id == uuidAlice && m.cart_id == uuidCart1)
        = [⟨uuidAlice, uuidCart1, "viewer", isoT1⟩] :=
  add_user_to_cart_replaces_only_in_transaction dbWithOwner uuidAlice uuidCart1
    "viewer" isoT1 (by decide) (by decide) (by decide)

theorem get_user_repository_single_construction_witness :
    (runCallers 3 initialFacState).constructed = 1
      ∧ (runCallers 3 initialFacState).cache = some 0
      ∧ FStep.acquireLock ∉ get_user_repository_steps
      ∧ FStep.runInitialize ∉ get_user_repository_steps
      ∧ List.Sublist [FStep.acquireLock, FStep.recheckCache, FStep.constructInstance,
          FStep.runInitialize, FStep.insertCache, FStep.releaseLock] get_manager_steps :=
  get_user_repository_single_construction 3 (by decide)

end ShopListBot
